import Mathlib

/-!
Verification of the Qwen2.5-Omni multimodal chat pipeline.

This development gives a shallow embedding of the turn-taking engine of the
repository: the frame bus of `core_pipeline.py` (`ProcessorBase.send_downstream`
and `send_upstream`), the capture/segmentation stage of `ears.py`
(`Ears.process_frame` and `Ears._end_speech_collection`), the generation stage
of `processors.py` (`AIProcessor.process_frame`, `AIProcessor._start_response_thread`,
`AIProcessor._interrupt_response`, `AIProcessor._generate_response`) and the
playback stage of `mouth.py` (`Mouth.add_audio_data`, `Mouth.start_stream`,
`Mouth.stop_stream`, `Mouth.stop_immediately`).

Raw audio byte strings are abstracted as natural numbers (capture side) or
strings (playback side); wall-clock readings and values read from fields that
other threads mutate concurrently (`is_generating`, the completed-request set,
the cancellation token) enter the model as explicit per-step observations.
-/

namespace VoiceChat

/-! ## Constants from `config.py` and `ears.py` -/

/-- `config.py`: sample rate. -/
def RATE : Nat := 16000

/-- `config.py`: samples per frame (32 ms). -/
def CHUNK : Nat := 512

/-- `ears.py`: frames of buffering after the end of speech. -/
def END_BUFFER_FRAMES : Nat := 10

/-- `ears.py`: consecutive silent frames required to detect the end. -/
def MIN_NEG_FRAMES_FOR_ENDING : Nat := 8

/-- `ears.py`: pre-buffer size, `int(1.0 * RATE / CHUNK)` = 31. -/
def PRE_BUFFER_FRAMES : Nat := RATE / CHUNK

/-- `ears.py`: consecutive speech frames needed to confirm a speech start. -/
def SPEECH_CONFIRM_FRAMES : Nat := 2

/-- `ears.py`: rolling pre-detection buffer capacity, `int(2.0 * RATE / CHUNK)` = 62. -/
def PRE_DETECTION_BUFFER_SIZE : Nat := 2 * RATE / CHUNK

/-! ## Frame bus (`core_pipeline.py`) -/

/-- `core_pipeline.FrameType`: DATA, CONTROL, SYSTEM (the spec's Immediate class). -/
inductive FrameType where
  | DATA
  | CONTROL
  | SYSTEM
deriving DecidableEq, Repr

/-- A frame with a typed payload, modelling `core_pipeline.Frame` (the payload
type is per-stage; timestamps and uuids carry no behaviour and are omitted). -/
structure PFrame (α : Type) where
  type : FrameType
  data : α
deriving DecidableEq, Repr

/-- A stage as seen by a sender: its input queue (`ProcessorBase.input_queue`)
and the state mutated by its `process_frame`. -/
structure StageM (α σ : Type) where
  inputQueue : List (PFrame α)
  procState : σ

/-- `ProcessorBase.send_downstream`: a SYSTEM frame is handed to the next
stage's `process_frame` synchronously; any other frame is enqueued. -/
def send_downstream {α σ : Type} (process : PFrame α → σ → σ) (f : PFrame α)
    (next : StageM α σ) : StageM α σ :=
  if f.type = FrameType.SYSTEM then
    { next with procState := process f next.procState }
  else
    { next with inputQueue := next.inputQueue ++ [f] }

/-- `ProcessorBase.send_upstream`: identical routing toward `prev_processor`. -/
def send_upstream {α σ : Type} (process : PFrame α → σ → σ) (f : PFrame α)
    (prev : StageM α σ) : StageM α σ :=
  if f.type = FrameType.SYSTEM then
    { prev with procState := process f prev.procState }
  else
    { prev with inputQueue := prev.inputQueue ++ [f] }

/-! ## Capture stage (`ears.py`) -/

/-- Payloads of the frames `Ears` sends downstream. -/
inductive EarsPayload where
  /-- `{"event": "user_interrupt", "command": "clear_pipeline"}` -/
  | userInterrupt
  /-- `{"event": "speech_started"}` -/
  | speechStarted
  /-- `{"event": "speech_ready", "speech_frames": frames}` (the base64 WAV
  encoding of the frames is carried alongside and is kept abstract). -/
  | speechReady (frames : List Nat)
deriving DecidableEq, Repr

/-- Frames emitted by the capture stage. -/
abbrev EFrame := PFrame EarsPayload

/-- One microphone DATA frame as processed by `Ears.process_frame`:
`data` abstracts the raw audio bytes, `isSpeech` is the value returned by
`_detect_speech` for this frame (the ONNX classifier is an external
collaborator), and `timedOut` is the observed truth value of
`time.time() - speech_start_time > MAX_SPEECH_DURATION`. -/
structure InFrame where
  data : Nat
  isSpeech : Bool
  timedOut : Bool
deriving DecidableEq, Repr

/-- The VAD/collection state of `Ears`. -/
structure EarsState where
  /-- rolling `collections.deque(maxlen=PRE_DETECTION_BUFFER_SIZE)`, oldest first -/
  buffer : List Nat
  speechDetected : Bool
  consecutiveSpeech : Nat
  consecutiveSilence : Nat
  isCollecting : Bool
  speechFrames : List Nat
deriving DecidableEq, Repr

/-- Initial state, as set up in `Ears.__init__` / `start_mic_stream`. -/
def earsInit : EarsState :=
  { buffer := [], speechDetected := false, consecutiveSpeech := 0,
    consecutiveSilence := 0, isCollecting := false, speechFrames := [] }

/-- `self.buffer.append(audio_data)` on the bounded deque. -/
def buffer_push (buf : List Nat) (x : Nat) : List Nat :=
  let b := buf ++ [x]
  if PRE_DETECTION_BUFFER_SIZE < b.length then
    b.drop (b.length - PRE_DETECTION_BUFFER_SIZE) else b

/-- Lines 128-143 of `ears.py`: append to the rolling buffer and update the
consecutive speech/silence counters from the classifier verdict. -/
def detect_update (st : EarsState) (f : InFrame) : EarsState :=
  let st := { st with buffer := buffer_push st.buffer f.data }
  if f.isSpeech then
    { st with consecutiveSpeech := st.consecutiveSpeech + 1, consecutiveSilence := 0 }
  else
    { st with consecutiveSilence := st.consecutiveSilence + 1, consecutiveSpeech := 0 }

/-- Lines 146-167 of `ears.py`: speech-start confirmation.  On confirmation the
pre-roll snapshot `speech_frames = list(self.buffer)` is taken and the
`user_interrupt` and `speech_started` SYSTEM frames are sent downstream. -/
def confirm_start (st : EarsState) : EarsState × List EFrame :=
  if st.speechDetected = false ∧ SPEECH_CONFIRM_FRAMES ≤ st.consecutiveSpeech then
    ({ st with speechDetected := true, isCollecting := true, speechFrames := st.buffer },
     [⟨FrameType.SYSTEM, EarsPayload.userInterrupt⟩,
      ⟨FrameType.SYSTEM, EarsPayload.speechStarted⟩])
  else (st, [])

/-- `Ears._end_speech_collection` (lines 189-234): clear the collection flags,
emit a `speech_ready` SYSTEM frame when any frames were collected, and reset
the counters and the collected list. -/
def end_speech_collection (st : EarsState) : EarsState × List EFrame :=
  if st.isCollecting = false then (st, [])
  else
    let st := { st with isCollecting := false, speechDetected := false }
    let outs :=
      if st.speechFrames.isEmpty then ([] : List EFrame)
      else [⟨FrameType.SYSTEM, EarsPayload.speechReady st.speechFrames⟩]
    ({ st with consecutiveSpeech := 0, consecutiveSilence := 0, speechFrames := [] }, outs)

/-- Lines 182-187 of `ears.py`, literally:
`buffer_count = 0; while buffer_count < END_BUFFER_FRAMES and
self.is_collecting_speech: buffer_count += 1; if buffer_count >=
END_BUFFER_FRAMES: self._end_speech_collection()`.  The loop consumes no
input frames; `fuel` bounds the iteration count (`END_BUFFER_FRAMES` suffices
because `buffer_count` increases by one per iteration). -/
def end_buffer_loop (st : EarsState) (bufferCount fuel : Nat) : EarsState × List EFrame :=
  match fuel with
  | 0 => (st, [])
  | fuel' + 1 =>
    if bufferCount < END_BUFFER_FRAMES ∧ st.isCollecting then
      let bc := bufferCount + 1
      let r := if END_BUFFER_FRAMES ≤ bc then end_speech_collection st else (st, [])
      let r2 := end_buffer_loop r.1 bc fuel'
      (r2.1, r.2 ++ r2.2)
    else (st, [])

/-- Lines 169-187 of `ears.py`: while collecting, append the frame, end on the
duration ceiling, otherwise run the end-buffer loop once
`consecutive_silence_frames >= MIN_NEG_FRAMES_FOR_ENDING`. -/
def collect_step (st : EarsState) (f : InFrame) : EarsState × List EFrame :=
  if st.isCollecting then
    let st := { st with speechFrames := st.speechFrames ++ [f.data] }
    if f.timedOut then end_speech_collection st
    else if MIN_NEG_FRAMES_FOR_ENDING ≤ st.consecutiveSilence then
      end_buffer_loop st 0 END_BUFFER_FRAMES
    else (st, [])
  else (st, [])

/-- `Ears.process_frame` on a microphone DATA frame (the SYSTEM start/stop
commands drive the pyaudio stream and are outside this model). -/
def process_frame (st : EarsState) (f : InFrame) : EarsState × List EFrame :=
  let st1 := detect_update st f
  let r1 := confirm_start st1
  let r2 := collect_step r1.1 f
  (r2.1, r1.2 ++ r2.2)

/-- Run the capture stage over a list of microphone frames, collecting every
frame it sends downstream, in order. -/
def earsRun (st : EarsState) : List InFrame → EarsState × List EFrame
  | [] => (st, [])
  | f :: rest =>
    let r1 := process_frame st f
    let r2 := earsRun r1.1 rest
    (r2.1, r1.2 ++ r2.2)

/-- The payload of a `speech_ready` frame, if this is one. -/
def payloadOf : EFrame → Option (List Nat)
  | ⟨_, EarsPayload.speechReady p⟩ => some p
  | _ => none

/-- The first emitted utterance payload in a stream of capture-stage outputs. -/
def firstPayload (outs : List EFrame) : Option (List Nat) :=
  (outs.filterMap payloadOf).head?

/-- `l` occurs contiguously inside `xs`. -/
def occursIn (l xs : List Nat) : Prop := ∃ s t, xs = s ++ l ++ t

/-- A speech frame used in concrete runs. -/
def speechF (d : Nat) : InFrame := ⟨d, true, false⟩

/-- A silent frame used in concrete runs. -/
def silentF (d : Nat) : InFrame := ⟨d, false, false⟩

/-! ## Generation stage (`processors.py`, class `AIProcessor`) -/

/-- The audio part of a streamed delta: `delta.audio["transcript"]` and
`delta.audio["data"]`, each present or absent. -/
structure AudioDelta where
  transcript : Option String
  data : Option String
deriving DecidableEq, Repr

/-- A streamed delta: `delta.content` and `delta.audio`. -/
structure Delta where
  content : Option String
  audio : Option AudioDelta
deriving DecidableEq, Repr

/-- One chunk of the streamed completion.  `delta = none` models a chunk with
empty `chunk.choices` (e.g. the trailing usage chunk). -/
structure Chunk where
  id : Option Nat
  delta : Option Delta
deriving DecidableEq, Repr

/-- Values that `_generate_response` reads, at this chunk, from state that
other threads mutate concurrently: membership of the request id in
`completed_request_ids`, the `is_generating` flag and
`context.is_cancelled()` — once at the top-of-loop checks (lines 226-242)
and again at the pre-audio re-checks (lines 262-271) — plus the context's
`session_id` at this moment (which the code never reads). -/
structure ChunkObs where
  completedMark : Bool
  isGenerating : Bool
  cancelled : Bool
  completedMark2 : Bool
  isGenerating2 : Bool
  cancelled2 : Bool
  sessionId : Nat
deriving DecidableEq, Repr

/-- The `response_data` dict of `_generate_response` together with the local
`request_id`, the audio forwarded downstream and the ids the loop itself added
to `completed_request_ids`. -/
structure GenLoopState where
  requestId : Option Nat
  aiText : String
  transcript : String
  hasAudio : Bool
  interrupted : Bool
  sentAudio : List String
  addedCompleted : List Nat
deriving DecidableEq, Repr

/-- Initial `response_data` (line 182-187) with `request_id = None`. -/
def genLoopInit : GenLoopState :=
  { requestId := none, aiText := "", transcript := "", hasAudio := false,
    interrupted := false, sentAudio := [], addedCompleted := [] }

/-- Lines 220-224: on the first chunk only, capture `chunk.id` as the
request id. -/
def captureRequestId (c : Chunk) (chunkCount : Nat) (st : GenLoopState) : GenLoopState :=
  if chunkCount + 1 = 1 ∧ c.id.isSome then { st with requestId := c.id } else st

/-- Lines 248-250: accumulate a non-empty `delta.content` into the raw text
(python truthiness: the empty string is skipped). -/
def applyContent (d : Delta) (st : GenLoopState) : GenLoopState :=
  match d.content with
  | some s => if s ≠ "" then { st with aiText := st.aiText ++ s } else st
  | none => st

/-- Lines 256-260: accumulate a non-empty `delta.audio["transcript"]`. -/
def applyTranscript (a : AudioDelta) (st : GenLoopState) : GenLoopState :=
  match a.transcript with
  | some t => if t ≠ "" then { st with transcript := st.transcript ++ t } else st
  | none => st

/-- The `for chunk in completion` loop of `_generate_response`
(lines 216-294).  `chunkCount` is the value of `chunk_count` before the
chunk is handled; a `break` is modelled by returning without recursing. -/
def gen_loop : List (Chunk × ChunkObs) → Nat → GenLoopState → GenLoopState
  | [], _, st => st
  | (c, o) :: rest, chunkCount, st =>
    let st := captureRequestId c chunkCount st
    if st.requestId.isSome ∧ o.completedMark then
      { st with interrupted := true }
    else if o.isGenerating = false ∨ o.cancelled then
      let st := { st with interrupted := true }
      match st.requestId with
      | some i => { st with addedCompleted := st.addedCompleted ++ [i] }
      | none => st
    else
      match c.delta with
      | none => gen_loop rest (chunkCount + 1) st
      | some d =>
        let st := applyContent d st
        match d.audio with
        | none => gen_loop rest (chunkCount + 1) st
        | some a =>
          let st := applyTranscript a { st with hasAudio := true }
          match a.data with
          | none => gen_loop rest (chunkCount + 1) st
          | some dat =>
            if st.requestId.isSome ∧ o.completedMark2 then st
            else if o.isGenerating2 = false ∨ o.cancelled2 then st
            else gen_loop rest (chunkCount + 1) { st with sentAudio := st.sentAudio ++ [dat] }

/-- A conversation-history entry (`self.messages`). -/
inductive Msg where
  | user (audioBase64 : String)
  | assistant (text : String)
deriving DecidableEq, Repr

/-- Events the generation stage sends upstream. -/
inductive UpEvent where
  /-- `{"event": "ai_response_started"}` -/
  | responseStarted
  /-- `{"event": "ai_response_ended"}`, with the error string when emitted
  from the `except` handler. -/
  | responseEnded (error : Option String)
deriving DecidableEq, Repr

/-- The fields of `AIProcessor` the claims are about. -/
structure AIState where
  messages : List Msg
  fullTranscript : String
  isGenerating : Bool
  currentRequestId : Option Nat
  completedRequestIds : List Nat
deriving DecidableEq, Repr

/-- `AIProcessor.__init__` state. -/
def aiInit : AIState :=
  { messages := [], fullTranscript := "", isGenerating := false,
    currentRequestId := none, completedRequestIds := [] }

/-- `set.add`: the python set is modelled as a duplicate-free list in
insertion order. -/
def setAdd (l : List Nat) (x : Nat) : List Nat := if x ∈ l then l else l ++ [x]

/-- Lines 350-355 (`finally`): once the completed set exceeds 100 entries,
keep only the most recent 50. -/
def pruneCompleted (l : List Nat) : List Nat :=
  if 100 < l.length then l.drop (l.length - 50) else l

/-- The whole remote turn: which chunks the stream delivered (with the
concurrent observations made while handling each), whether iterating the
stream ended by raising an exception (`error`), and the context's
`session_id` as it stood when the turn started — recorded here only so that
claims about it can be stated; the code never captures or reads it. -/
structure GenStream where
  chunks : List (Chunk × ChunkObs)
  error : Option String
  sessionAtStart : Nat
deriving DecidableEq, Repr

/-- Everything `_generate_response` produced: the processor state after the
`finally` block, the upstream events, the audio forwarded downstream, the
final loop state, and the completed set as it stood after the post-loop
`completed_request_ids.add` but before the `finally` pruning. -/
structure GenResult where
  state : AIState
  upEvents : List UpEvent
  sentAudio : List String
  loopFinal : GenLoopState
  completedBeforePrune : List Nat
deriving DecidableEq, Repr

/-- `AIProcessor._generate_response` (lines 179-355).  On the normal path the
post-loop code (lines 298-326) marks the request completed, appends the
assistant message when the turn was not interrupted (preferring the model
transcript, line 305-320) and emits `ai_response_ended`; on an exception the
handler (lines 331-340) emits `ai_response_ended` carrying the error instead;
the `finally` block (lines 342-355) always clears `is_generating` and
`current_request_id` and prunes the completed set. -/
def generate_response (st : AIState) (stream : GenStream) : GenResult :=
  let lf := gen_loop stream.chunks 0 genLoopInit
  let setAfterLoop := lf.addedCompleted.foldl setAdd st.completedRequestIds
  match stream.error with
  | some e =>
    { state := { st with isGenerating := false, currentRequestId := none,
                         completedRequestIds := pruneCompleted setAfterLoop },
      upEvents := [UpEvent.responseEnded (some e)],
      sentAudio := lf.sentAudio,
      loopFinal := lf,
      completedBeforePrune := setAfterLoop }
  | none =>
    let setPost :=
      match lf.requestId with
      | some i => setAdd setAfterLoop i
      | none => setAfterLoop
    let msgs :=
      if lf.interrupted = false then
        if lf.transcript ≠ "" then st.messages ++ [Msg.assistant lf.transcript]
        else if lf.aiText ≠ "" then st.messages ++ [Msg.assistant lf.aiText]
        else st.messages
      else st.messages
    let ftr :=
      if lf.interrupted = false ∧ lf.transcript ≠ "" then
        st.fullTranscript ++ lf.transcript ++ " "
      else st.fullTranscript
    { state := { st with messages := msgs, fullTranscript := ftr,
                         isGenerating := false, currentRequestId := none,
                         completedRequestIds := pruneCompleted setPost },
      upEvents := [UpEvent.responseEnded none],
      sentAudio := lf.sentAudio,
      loopFinal := lf,
      completedBeforePrune := setPost }

/-- Input frames handled by `AIProcessor.process_frame` (SYSTEM branch). -/
inductive AIn where
  /-- `{"event": "speech_ready", "audio_base64": a}` -/
  | speechReady (audioBase64 : String)
  /-- `{"event": "user_interrupt"}`, with `command == "clear_pipeline"` when
  `clearPipeline` is set. -/
  | userInterrupt (clearPipeline : Bool)
deriving DecidableEq, Repr

/-- `AIProcessor._start_response_thread` (lines 148-159): a no-op while
`is_generating` holds; otherwise sets the flag and spawns the response
thread.  The returned Bool is whether a thread was started. -/
def start_response_thread (st : AIState) : AIState × Bool :=
  if st.isGenerating then (st, false)
  else ({ st with isGenerating := true }, true)

/-- `AIProcessor._interrupt_response` (lines 161-177): clear `is_generating`,
mark the current request id completed, send a stop command downstream. -/
def interrupt_response (st : AIState) : AIState × List String :=
  let st := { st with isGenerating := false }
  let st :=
    match st.currentRequestId with
    | some i => { st with completedRequestIds := setAdd st.completedRequestIds i }
    | none => st
  (st, ["stop"])

/-- Result of one `AIProcessor.process_frame` call. -/
structure AIOut where
  state : AIState
  upEvents : List UpEvent
  downCommands : List String
  threadStarted : Bool
deriving DecidableEq, Repr

/-- `AIProcessor.process_frame` on a SYSTEM frame (lines 45-103): an empty
audio payload is rejected; otherwise the user message is appended to the
history, `ai_response_started` is sent upstream and `_start_response_thread`
is invoked. -/
def ai_process_frame (st : AIState) (inp : AIn) : AIOut :=
  match inp with
  | AIn.userInterrupt clear =>
    let r := interrupt_response st
    let down := if clear then r.2 ++ ["clear_pipeline"] else r.2
    { state := r.1, upEvents := [], downCommands := down, threadStarted := false }
  | AIn.speechReady a =>
    if a = "" then { state := st, upEvents := [], downCommands := [], threadStarted := false }
    else
      let st := { st with messages := st.messages ++ [Msg.user a] }
      let r := start_response_thread st
      { state := r.1, upEvents := [UpEvent.responseStarted], downCommands := [],
        threadStarted := r.2 }

/-! ## Playback stage (`mouth.py`, class `Mouth`) -/

/-- `MAX_FINISH_DURATION` (0.25 s) in milliseconds; the model measures time
in integer milliseconds. -/
def MAX_FINISH_DURATION_MS : Nat := 250

/-- The fields of `Mouth` the claims are about.  `thread = none` models
`playback_thread is None`; `some alive` models an existing thread object
whose `is_alive()` returns `alive`. -/
structure MouthState where
  stream : Bool
  audioQueue : List String
  isPlaying : Bool
  shouldStop : Bool
  smoothInterrupt : Bool
  bufferEmpty : Bool
  playbackFinished : Bool
  fadeOutActive : Bool
  interruptTime : Option Nat
  lastAudioTime : Option Nat
  thread : Option Bool
deriving DecidableEq, Repr

/-- `Mouth.stop_stream` (lines 345-390): always request a stop; when a stream
handle exists, additionally drain the FIFO, close the handle, set the
completion events, join the worker and reset the playing/interrupt/fade
flags and the thread reference. -/
def stop_stream (st : MouthState) : MouthState :=
  let st := { st with shouldStop := true }
  if st.stream then
    { st with audioQueue := [], stream := false, bufferEmpty := true,
              playbackFinished := true, isPlaying := false,
              smoothInterrupt := false, fadeOutActive := false, thread := none }
  else st

/-- `Mouth.stop_immediately` (lines 392-413): set the hard-stop flags, drain
the FIFO, then close via `stop_stream`. -/
def stop_immediately (st : MouthState) : MouthState :=
  let st := { st with shouldStop := true, smoothInterrupt := false, audioQueue := [] }
  stop_stream st

/-- `Mouth.start_stream` (lines 37-71): close any existing stream first, then
open the device (`openOk` is whether `pyaudio.open` succeeds), reset all
flags and spawn the playback worker; on failure clear `is_playing` and the
handle. -/
def start_stream (st : MouthState) (openOk : Bool) : MouthState :=
  let st := if st.stream then stop_stream st else st
  if openOk then
    { st with stream := true, isPlaying := true, shouldStop := false,
              bufferEmpty := true, lastAudioTime := none, smoothInterrupt := false,
              interruptTime := none, fadeOutActive := false,
              playbackFinished := false, thread := some true }
  else { st with isPlaying := false, stream := false }

/-- `Mouth.add_audio_data` (lines 106-155).  `now` is the wall clock in
milliseconds; the base64 decoding of the chunk (lines 126-140) is abstracted
away, the payload string standing for the decoded raw samples. -/
def add_audio_data (st : MouthState) (audioData : String) (now : Nat)
    (openOk : Bool) : MouthState :=
  let st :=
    if st.isPlaying ∧ (st.thread = none ∨ st.thread = some false) then
      { st with isPlaying := false, stream := false }
    else st
  let st := if st.isPlaying = false then start_stream st openOk else st
  if st.shouldStop ∧ st.smoothInterrupt = false then st
  else
    let st := if st.playbackFinished then { st with playbackFinished := false } else st
    let lateSmooth : Bool :=
      match st.interruptTime with
      | some t => st.smoothInterrupt && decide (MAX_FINISH_DURATION_MS < now - t)
      | none => false
    if lateSmooth then st
    else { st with audioQueue := st.audioQueue ++ [audioData], bufferEmpty := false,
                   lastAudioTime := some now }

/-! ## Concrete runs used to settle the claims -/

/-- A minimal speech segment: two speech frames confirm the start
(`SPEECH_CONFIRM_FRAMES = 2`), eight silent frames reach
`MIN_NEG_FRAMES_FOR_ENDING = 8`, and one more speech frame follows. -/
def segInput : List InFrame :=
  [speechF 0, speechF 1, silentF 2, silentF 3, silentF 4, silentF 5, silentF 6,
   silentF 7, silentF 8, silentF 9, speechF 10]

/-- The capture state right before the finalizing frame of `segInput`
(after frames 0..8: collecting, seven consecutive silent frames seen). -/
def segSt9 : EarsState := (earsRun earsInit (segInput.take 9)).1

/-- Capture state after one speech frame, one frame short of confirmation. -/
def almostConfirmSt : EarsState := (earsRun earsInit [speechF 0]).1

/-- 31 captured frames (= `PRE_BUFFER_FRAMES`), the last one speech. -/
def preRollInput : List InFrame :=
  (List.range 30).map silentF ++ [speechF 30]

/-- Capture state after `preRollInput`: buffer holds 31 frames,
`consecutive_speech_frames = 1`, nothing detected yet. -/
def preRollSt : EarsState := (earsRun earsInit preRollInput).1

/-- A chunk carrying only an audio fragment, with request id 7. -/
def c1chunk : Chunk :=
  ⟨some 7, some ⟨none, some ⟨none, some "A"⟩⟩⟩

/-- Observations for `c1chunk`: nothing was interrupted or cancelled, but the
context's `session_id` now reads 5. -/
def c1obs : ChunkObs :=
  { completedMark := false, isGenerating := true, cancelled := false,
    completedMark2 := false, isGenerating2 := true, cancelled2 := false,
    sessionId := 5 }

/-- A turn that started under `session_id = 4` and then observed
`session_id = 5` at its only chunk. -/
def c1stream : GenStream := { chunks := [(c1chunk, c1obs)], error := none, sessionAtStart := 4 }

/-- Observations taken after `_interrupt_response` cleared `is_generating`. -/
def stopObs : ChunkObs :=
  { completedMark := false, isGenerating := false, cancelled := false,
    completedMark2 := false, isGenerating2 := false, cancelled2 := false,
    sessionId := 9 }

/-- Observations with everything still running, session id 3. -/
def okObs : ChunkObs :=
  { completedMark := false, isGenerating := true, cancelled := false,
    completedMark2 := false, isGenerating2 := true, cancelled2 := false,
    sessionId := 3 }

/-- A stream that completes normally with an empty response: no chunk at all
before the stream ends (e.g. the service closes the stream immediately). -/
def emptyStream : GenStream := { chunks := [], error := none, sessionAtStart := 3 }

/-- A normally completing one-chunk stream whose audio delta carries the
transcript fragment "hi" and audio data "AUD". -/
def transcriptStream : GenStream :=
  { chunks := [(⟨some 7, some ⟨none, some ⟨some "hi", some "AUD"⟩⟩⟩, okObs)],
    error := none, sessionAtStart := 3 }

/-- A turn whose stream iteration raises a transport error. -/
def errorStream : GenStream := { chunks := [], error := some "boom", sessionAtStart := 3 }

/-- Playback state after a completed hard stop: stopped, not playing, no
stream handle, no worker thread. -/
def mouthStopped : MouthState :=
  { stream := false, audioQueue := [], isPlaying := false, shouldStop := true,
    smoothInterrupt := false, bufferEmpty := true, playbackFinished := true,
    fadeOutActive := false, interruptTime := none, lastAudioTime := none,
    thread := none }

/-- Playback state mid-playback with a hard stop requested. -/
def mouthStopping : MouthState :=
  { stream := true, audioQueue := ["q1"], isPlaying := true, shouldStop := true,
    smoothInterrupt := false, bufferEmpty := false, playbackFinished := false,
    fadeOutActive := false, interruptTime := none, lastAudioTime := some 10,
    thread := some true }

/-- Playback state during a smooth interrupt requested at t = 1000 ms. -/
def mouthSmooth : MouthState :=
  { stream := true, audioQueue := ["q1"], isPlaying := true, shouldStop := true,
    smoothInterrupt := true, bufferEmpty := false, playbackFinished := false,
    fadeOutActive := true, interruptTime := some 1000, lastAudioTime := some 1000,
    thread := some true }

/-! ## Helper lemmas -/

/-- `detect_update` only touches the buffer and the counters. -/
theorem detect_update_speechDetected (st : EarsState) (f : InFrame) :
    (detect_update st f).speechDetected = st.speechDetected := by
  simp only [detect_update]
  split <;> rfl

/-- `detect_update` preserves the collecting flag. -/
theorem detect_update_isCollecting (st : EarsState) (f : InFrame) :
    (detect_update st f).isCollecting = st.isCollecting := by
  simp only [detect_update]
  split <;> rfl

/-- `detect_update` preserves the collected frames. -/
theorem detect_update_speechFrames (st : EarsState) (f : InFrame) :
    (detect_update st f).speechFrames = st.speechFrames := by
  simp only [detect_update]
  split <;> rfl

/-- `end_speech_collection` always leaves the collecting flag cleared. -/
theorem end_speech_collection_isCollecting (st : EarsState) :
    (end_speech_collection st).1.isCollecting = false := by
  simp only [end_speech_collection]
  split
  · next h => simpa using h
  · rfl

/-- The synchronous buffer-count loop of `ears.py` lines 182-187 is exactly
one call of `_end_speech_collection` whenever collection is in progress: it
processes no input frames in between. -/
theorem end_buffer_loop_eq (st : EarsState) (hc : st.isCollecting = true) :
    end_buffer_loop st 0 END_BUFFER_FRAMES = end_speech_collection st := by
  have aux : ∀ n bc, bc + n = END_BUFFER_FRAMES → 0 < n →
      end_buffer_loop st bc n = end_speech_collection st := by
    intro n
    induction n with
    | zero => intro bc _ h; omega
    | succ m ih =>
      intro bc hbc _
      by_cases hm : m = 0
      · subst hm
        have hbc9 : bc = END_BUFFER_FRAMES - 1 := by omega
        simp only [end_buffer_loop]
        rw [if_pos ⟨by omega, hc⟩, if_pos (by omega)]
        simp [end_buffer_loop]
      · have hlt : bc < END_BUFFER_FRAMES := by omega
        simp only [end_buffer_loop]
        rw [if_pos ⟨hlt, hc⟩, if_neg (by omega)]
        simpa using ih (bc + 1) (by omega) (by omega)
  exact aux END_BUFFER_FRAMES 0 rfl (by decide)

/-- While collecting (with speech already confirmed), `process_frame` appends
the frame to the collection and either finalizes — on the duration ceiling or
once `MIN_NEG_FRAMES_FOR_ENDING` consecutive silent frames have been seen —
or just keeps collecting. -/
theorem process_frame_collecting (st : EarsState) (f : InFrame)
    (hd : st.speechDetected = true) (hc : st.isCollecting = true) :
    process_frame st f =
      (if f.timedOut = true ∨
          MIN_NEG_FRAMES_FOR_ENDING ≤ (detect_update st f).consecutiveSilence then
        end_speech_collection
          { detect_update st f with speechFrames := st.speechFrames ++ [f.data] }
      else
        ({ detect_update st f with speechFrames := st.speechFrames ++ [f.data] }, [])) := by
  simp only [process_frame, confirm_start, detect_update_speechDetected, hd]
  rw [if_neg (by simp)]
  simp only [collect_step, detect_update_isCollecting, hc, if_pos,
    detect_update_speechFrames]
  by_cases hto : f.timedOut = true
  · simp [hto, detect_update_speechDetected, hd]
  · have hto' : f.timedOut = false := by simpa using hto
    simp only [hto', Bool.false_eq_true, if_false]
    by_cases hsil : MIN_NEG_FRAMES_FOR_ENDING ≤ (detect_update st f).consecutiveSilence
    · rw [if_pos hsil]
      rw [end_buffer_loop_eq _ (by simp [detect_update_isCollecting, hc])]
      simp [hsil, hto', detect_update_speechDetected, hd]
    · rw [if_neg hsil]
      simp [hsil, hto', detect_update_speechDetected, hd]

/-- A contiguous occurrence survives appending on the right. -/
theorem occursIn_append_right (l xs t2 : List Nat) (h : occursIn l xs) :
    occursIn l (xs ++ t2) := by
  obtain ⟨s, t, rfl⟩ := h
  exact ⟨s, t ++ t2, by simp⟩

/-- The pre-roll is kept by the bounded deque push: as long as the buffer
held at least `PRE_BUFFER_FRAMES` frames and at most its capacity, the last
`PRE_BUFFER_FRAMES` frames followed by the new frame form a suffix of the
pushed buffer. -/
theorem buffer_push_preRoll (buf : List Nat) (x : Nat)
    (h1 : PRE_BUFFER_FRAMES ≤ buf.length)
    (h2 : buf.length ≤ PRE_DETECTION_BUFFER_SIZE) :
    ∃ s, buffer_push buf x =
      s ++ (buf.drop (buf.length - PRE_BUFFER_FRAMES) ++ [x]) := by
  have hsplit : buf.take (buf.length - PRE_BUFFER_FRAMES) ++
      buf.drop (buf.length - PRE_BUFFER_FRAMES) = buf := List.take_append_drop _ _
  have htklen : (buf.take (buf.length - PRE_BUFFER_FRAMES)).length =
      buf.length - PRE_BUFFER_FRAMES := by
    rw [List.length_take]
    omega
  have hx : buf ++ [x] = buf.take (buf.length - PRE_BUFFER_FRAMES) ++
      (buf.drop (buf.length - PRE_BUFFER_FRAMES) ++ [x]) := by
    rw [← List.append_assoc, hsplit]
  simp only [buffer_push]
  split
  · next hlong =>
    set n := (buf ++ [x]).length - PRE_DETECTION_BUFFER_SIZE with hn
    refine ⟨(buf.take (buf.length - PRE_BUFFER_FRAMES)).drop n, ?_⟩
    have hle : n ≤ (buf.take (buf.length - PRE_BUFFER_FRAMES)).length := by
      rw [htklen, hn]
      simp only [List.length_append, List.length_cons, List.length_nil]
      have hp : PRE_BUFFER_FRAMES = 31 := by decide
      have hq : PRE_DETECTION_BUFFER_SIZE = 62 := by decide
      omega
    conv_lhs => rw [hx]
    exact List.drop_append_of_le_length hle
  · exact ⟨buf.take (buf.length - PRE_BUFFER_FRAMES), hx⟩

/-- `user_interrupt` and `speech_started` frames carry no payload, so the
first utterance payload of a concatenation starting with them is found in
the tail. -/
theorem firstPayload_append_nonpayload (outs : List EFrame)
    (h : ∀ e ∈ outs, payloadOf e = none) (rest : List EFrame) :
    firstPayload (outs ++ rest) = firstPayload rest := by
  simp only [firstPayload, List.filterMap_append]
  rw [List.filterMap_eq_nil_iff.mpr h]
  rfl

/-- When collection is in progress and frames were collected,
`_end_speech_collection` resets the state and emits exactly one
`speech_ready` frame with the collection as payload. -/
theorem end_speech_collection_out (st : EarsState) (hc : st.isCollecting = true)
    (hne : st.speechFrames.isEmpty = false) :
    end_speech_collection st =
      ({ st with isCollecting := false, speechDetected := false,
                 consecutiveSpeech := 0, consecutiveSilence := 0, speechFrames := [] },
       [⟨FrameType.SYSTEM, EarsPayload.speechReady st.speechFrames⟩]) := by
  simp only [end_speech_collection]
  rw [if_neg (by simp [hc])]
  simp [hne]

/-- While an utterance is being collected, any contiguous block already in
`speech_frames` occurs in the first payload that the capture stage emits
from here on (each later frame is appended to the collection, and the
collection is emitted wholesale when the end fires). -/
theorem firstPayload_keeps (l : List Nat) :
    ∀ (input : List InFrame) (st : EarsState),
      st.speechDetected = true → st.isCollecting = true →
      occursIn l st.speechFrames →
      ∀ p, firstPayload (earsRun st input).2 = some p → occursIn l p := by
  intro input
  induction input with
  | nil =>
    intro st _ _ _ p hp
    simp [earsRun, firstPayload] at hp
  | cons f rest ih =>
    intro st hd hc hocc p hp
    rw [earsRun, process_frame_collecting st f hd hc] at hp
    set st2 : EarsState :=
      { detect_update st f with speechFrames := st.speechFrames ++ [f.data] } with hst2
    have hocc2 : occursIn l st2.speechFrames := by
      simpa [hst2] using occursIn_append_right l st.speechFrames [f.data] hocc
    have hd2 : st2.speechDetected = true := by
      simp [hst2, detect_update_speechDetected, hd]
    have hc2 : st2.isCollecting = true := by
      simp [hst2, detect_update_isCollecting, hc]
    by_cases hend : f.timedOut = true ∨
        MIN_NEG_FRAMES_FOR_ENDING ≤ (detect_update st f).consecutiveSilence
    · rw [if_pos hend] at hp
      rw [end_speech_collection_out st2 hc2 (by simp [hst2])] at hp
      simp only [firstPayload, List.filterMap_append, List.filterMap_cons,
        payloadOf, List.filterMap_nil, List.nil_append, List.cons_append,
        List.head?_cons, Option.some.injEq] at hp
      rw [← hp]
      exact hocc2
    · rw [if_neg hend] at hp
      simp only [List.nil_append] at hp
      exact ih st2 hd2 hc2 hocc2 p hp

/-- An element just added to the modelled python set is a member. -/
theorem mem_setAdd_self (l : List Nat) (x : Nat) : x ∈ setAdd l x := by
  by_cases h : x ∈ l <;> simp [setAdd, h]

/-- The `finally`-block pruning keeps the completed set at no more than 100
entries. -/
theorem pruneCompleted_length_le (l : List Nat) :
    (pruneCompleted l).length ≤ 100 := by
  simp only [pruneCompleted]
  split
  · next h => simp only [List.length_drop]; omega
  · next h => omega

/-- Capturing the request id touches no other loop-state field. -/
theorem captureRequestId_sentAudio (c : Chunk) (k : Nat) (st : GenLoopState) :
    (captureRequestId c k st).sentAudio = st.sentAudio := by
  simp only [captureRequestId]
  split <;> rfl

/-- Capturing the request id leaves the raw text alone. -/
theorem captureRequestId_aiText (c : Chunk) (k : Nat) (st : GenLoopState) :
    (captureRequestId c k st).aiText = st.aiText := by
  simp only [captureRequestId]
  split <;> rfl

/-- Capturing the request id leaves the transcript alone. -/
theorem captureRequestId_transcript (c : Chunk) (k : Nat) (st : GenLoopState) :
    (captureRequestId c k st).transcript = st.transcript := by
  simp only [captureRequestId]
  split <;> rfl

/-- Accumulating content does not change the request id. -/
theorem applyContent_requestId (d : Delta) (st : GenLoopState) :
    (applyContent d st).requestId = st.requestId := by
  cases hc : d.content with
  | none => simp [applyContent, hc]
  | some s =>
    simp only [applyContent, hc]
    split <;> rfl

/-- Accumulating content does not forward audio. -/
theorem applyContent_sentAudio (d : Delta) (st : GenLoopState) :
    (applyContent d st).sentAudio = st.sentAudio := by
  cases hc : d.content with
  | none => simp [applyContent, hc]
  | some s =>
    simp only [applyContent, hc]
    split <;> rfl

/-- Accumulating the transcript does not change the request id. -/
theorem applyTranscript_requestId (a : AudioDelta) (st : GenLoopState) :
    (applyTranscript a st).requestId = st.requestId := by
  cases hc : a.transcript with
  | none => simp [applyTranscript, hc]
  | some t =>
    simp only [applyTranscript, hc]
    split <;> rfl

/-- Accumulating the transcript does not forward audio. -/
theorem applyTranscript_sentAudio (a : AudioDelta) (st : GenLoopState) :
    (applyTranscript a st).sentAudio = st.sentAudio := by
  cases hc : a.transcript with
  | none => simp [applyTranscript, hc]
  | some t =>
    simp only [applyTranscript, hc]
    split <;> rfl

/-! ## Claim theorems -/

/-- C2: the claim says that once `consecutive_silence` reaches
`MIN_NEG_FRAMES_FOR_ENDING` the utterance is finalized only after
`END_BUFFER_FRAMES` further consecutive non-speech input frames, any speech
frame during that period cancelling the end.  The code diverges: in
`segInput`, speech is confirmed at frame 1 and the eighth consecutive silent
frame is frame 9, yet the `speech_ready` frame is emitted during the
processing of frame 9 itself — the `buffer_count` loop of `ears.py` lines
182-187 counts to `END_BUFFER_FRAMES` synchronously without consuming any
input — so the payload ends at frame 9 and the speech frame 10 that follows
cannot cancel anything. -/
theorem C2_code_divergence :
    (earsRun earsInit segInput).2 =
      [⟨FrameType.SYSTEM, EarsPayload.userInterrupt⟩,
       ⟨FrameType.SYSTEM, EarsPayload.speechStarted⟩,
       ⟨FrameType.SYSTEM, EarsPayload.speechReady [0, 1, 1, 2, 3, 4, 5, 6, 7, 8, 9]⟩] ∧
    segInput.length = SPEECH_CONFIRM_FRAMES + MIN_NEG_FRAMES_FOR_ENDING + 1 := by
  constructor
  · rfl
  · rfl

/-- C3 counterexample: in the run `segInput`, the trailing silence run starts
at frame 2 (data value 2), so the claim would require every frame after it —
in particular frame 9 — to be excluded from the payload; but the emitted
payload is `[0, 1, 1, 2, 3, 4, 5, 6, 7, 8, 9]` and contains 9. -/
theorem C3_counterexample :
    firstPayload (earsRun earsInit segInput).2 =
      some [0, 1, 1, 2, 3, 4, 5, 6, 7, 8, 9] ∧
    9 ∈ [0, 1, 1, 2, 3, 4, 5, 6, 7, 8, 9] := by
  constructor
  · rfl
  · decide

/-- C3 amended: the end boundary of a finalized utterance is the frame at
which finalization fired, not the first silent frame: when a collecting state
processes the non-speech frame that brings `consecutive_silence` up to
`MIN_NEG_FRAMES_FOR_ENDING`, the emitted payload is the whole collection
including that frame — the entire trailing silence run is part of the
payload, nothing is trimmed. -/
theorem C3_end_boundary_amended (st : EarsState) (f : InFrame)
    (hd : st.speechDetected = true) (hc : st.isCollecting = true)
    (hs : f.isSpeech = false) (ht : f.timedOut = false)
    (hn : MIN_NEG_FRAMES_FOR_ENDING ≤ st.consecutiveSilence + 1) :
    (process_frame st f).2 =
      [⟨FrameType.SYSTEM, EarsPayload.speechReady (st.speechFrames ++ [f.data])⟩] := by
  have hsil : MIN_NEG_FRAMES_FOR_ENDING ≤ (detect_update st f).consecutiveSilence := by
    simp only [detect_update, hs]
    simpa using hn
  rw [process_frame_collecting st f hd hc, if_pos (Or.inr hsil)]
  rw [end_speech_collection_out _ (by simp [detect_update_isCollecting, hc]) (by simp)]

/-- C3 witness: the amended statement evaluated at the state reached after
the first nine frames of `segInput`, processing the eighth consecutive
silent frame. -/
theorem C3_witness :
    (process_frame segSt9 (silentF 9)).2 =
      [⟨FrameType.SYSTEM, EarsPayload.speechReady (segSt9.speechFrames ++ [9])⟩] :=
  C3_end_boundary_amended segSt9 (silentF 9) rfl rfl rfl rfl (by decide)

/-- C6: pre-roll completeness.  If at least `PRE_BUFFER_FRAMES` captured
frames precede the confirming frame `f` (they fill the rolling buffer, whose
occupancy never exceeds `PRE_DETECTION_BUFFER_SIZE`), then the first
utterance payload emitted from the confirmation on contains, contiguously,
the `PRE_BUFFER_FRAMES` frames immediately preceding `f` followed by `f`
itself: the confirmed word's onset is not clipped. -/
theorem C6_preroll_completeness (st : EarsState) (f : InFrame) (rest : List InFrame)
    (hd : st.speechDetected = false) (hcol : st.isCollecting = false)
    (hlen : PRE_BUFFER_FRAMES ≤ st.buffer.length)
    (hcap : st.buffer.length ≤ PRE_DETECTION_BUFFER_SIZE)
    (hsp : f.isSpeech = true) (hto : f.timedOut = false)
    (hconf : SPEECH_CONFIRM_FRAMES ≤ st.consecutiveSpeech + 1) :
    ∀ p, firstPayload (earsRun st (f :: rest)).2 = some p →
      occursIn (st.buffer.drop (st.buffer.length - PRE_BUFFER_FRAMES) ++ [f.data]) p := by
  intro p hp
  have hupd : detect_update st f =
      { st with buffer := buffer_push st.buffer f.data,
                consecutiveSpeech := st.consecutiveSpeech + 1,
                consecutiveSilence := 0 } := by
    simp [detect_update, hsp]
  set st2 : EarsState :=
    { detect_update st f with
        speechDetected := true, isCollecting := true,
        speechFrames := (detect_update st f).buffer } with hst2
  have hconf2 : confirm_start (detect_update st f) =
      (st2, [⟨FrameType.SYSTEM, EarsPayload.userInterrupt⟩,
             ⟨FrameType.SYSTEM, EarsPayload.speechStarted⟩]) := by
    rw [confirm_start, if_pos ⟨by rw [detect_update_speechDetected]; exact hd,
      by rw [hupd]; simpa using hconf⟩]
  have hcoll : collect_step st2 f =
      ({ st2 with speechFrames := st2.speechFrames ++ [f.data] }, []) := by
    have h0 : ({ st2 with speechFrames := st2.speechFrames ++ [f.data] } :
        EarsState).consecutiveSilence = 0 := by
      simp [hst2, hupd]
    rw [collect_step, if_pos (show st2.isCollecting = true by simp [hst2])]
    rw [if_neg (by simp [hto]), if_neg (by rw [h0]; decide)]
  have hpf : process_frame st f =
      ({ st2 with speechFrames := st2.speechFrames ++ [f.data] },
       [⟨FrameType.SYSTEM, EarsPayload.userInterrupt⟩,
        ⟨FrameType.SYSTEM, EarsPayload.speechStarted⟩]) := by
    rw [process_frame]
    simp only [hconf2, hcoll, List.append_nil]
  rw [earsRun, hpf] at hp
  dsimp only at hp
  rw [firstPayload_append_nonpayload
    [⟨FrameType.SYSTEM, EarsPayload.userInterrupt⟩,
     ⟨FrameType.SYSTEM, EarsPayload.speechStarted⟩] (by decide) _] at hp
  have hocc : occursIn (st.buffer.drop (st.buffer.length - PRE_BUFFER_FRAMES) ++ [f.data])
      ({ st2 with speechFrames := st2.speechFrames ++ [f.data] } : EarsState).speechFrames := by
    obtain ⟨s, hs⟩ := buffer_push_preRoll st.buffer f.data hlen hcap
    refine ⟨s, [f.data], ?_⟩
    show st2.speechFrames ++ [f.data] = _
    rw [hst2]
    show (detect_update st f).buffer ++ [f.data] = _
    rw [hupd]
    show buffer_push st.buffer f.data ++ [f.data] = _
    rw [hs, List.append_assoc]
  exact firstPayload_keeps _ rest _ (by simp [hst2]) (by simp [hst2]) hocc p hp

set_option maxRecDepth 4000 in
/-- C6 witness: after 31 captured frames (data 0..30, the last one speech),
the speech frame 31 confirms the start; the utterance emitted after the
following eight silent frames contains the 31 frames preceding frame 31
followed by frame 31 itself. -/
theorem C6_witness :
    occursIn (preRollSt.buffer.drop (preRollSt.buffer.length - PRE_BUFFER_FRAMES) ++ [31])
      [0, 1, 2, 3, 4, 5, 6, 7, 8, 9, 10, 11, 12, 13, 14, 15, 16, 17, 18, 19, 20,
       21, 22, 23, 24, 25, 26, 27, 28, 29, 30, 31, 31, 32, 33, 34, 35, 36, 37, 38, 39] :=
  C6_preroll_completeness preRollSt (speechF 31)
    [silentF 32, silentF 33, silentF 34, silentF 35, silentF 36, silentF 37,
     silentF 38, silentF 39]
    rfl rfl (by decide) (by decide) rfl rfl (by decide) _ rfl

/-- C4: SYSTEM (Immediate) frames bypass the target stage's input queue —
`send_downstream`/`send_upstream` run the target's `process_frame`
synchronously, leaving every already-queued frame still queued — while
DATA/CONTROL frames are appended to the queue without touching the stage
state; and the barge-in `user_interrupt` frame emitted the instant speech is
confirmed is the head of the capture stage's output and is SYSTEM-typed. -/
theorem C4_immediate_bypass :
    (∀ (σ : Type) (process : EFrame → σ → σ) (f : EFrame) (tgt : StageM EarsPayload σ),
      f.type = FrameType.SYSTEM →
        send_downstream process f tgt = ⟨tgt.inputQueue, process f tgt.procState⟩ ∧
        send_upstream process f tgt = ⟨tgt.inputQueue, process f tgt.procState⟩) ∧
    (∀ (σ : Type) (process : EFrame → σ → σ) (f : EFrame) (tgt : StageM EarsPayload σ),
      f.type ≠ FrameType.SYSTEM →
        send_downstream process f tgt = ⟨tgt.inputQueue ++ [f], tgt.procState⟩ ∧
        send_upstream process f tgt = ⟨tgt.inputQueue ++ [f], tgt.procState⟩) ∧
    (∀ (st : EarsState) (f : InFrame),
      st.speechDetected = false → f.isSpeech = true →
      SPEECH_CONFIRM_FRAMES ≤ st.consecutiveSpeech + 1 →
      (process_frame st f).2.head? =
        some ⟨FrameType.SYSTEM, EarsPayload.userInterrupt⟩) := by
  refine ⟨?_, ?_, ?_⟩
  · intro σ process f tgt hf
    constructor <;> simp [send_downstream, send_upstream, hf]
  · intro σ process f tgt hf
    constructor <;> simp [send_downstream, send_upstream, hf]
  · intro st f hd hsp hconf
    have hupd : (detect_update st f).speechDetected = false := by
      rw [detect_update_speechDetected]; exact hd
    have hcs : SPEECH_CONFIRM_FRAMES ≤ (detect_update st f).consecutiveSpeech := by
      simp only [detect_update, hsp]
      simpa using hconf
    rw [process_frame]
    rw [confirm_start, if_pos ⟨hupd, hcs⟩]
    simp

/-- C4 witness: a SYSTEM frame is applied synchronously to a stage holding a
queued DATA frame, leaving the queue unchanged while the state effect has
already happened; and the capture state one frame short of confirmation
emits the SYSTEM barge-in frame first on the confirming speech frame. -/
theorem C4_witness :
    send_downstream (fun _ n => n + 1)
        (⟨FrameType.SYSTEM, EarsPayload.userInterrupt⟩ : EFrame)
        ⟨[⟨FrameType.DATA, EarsPayload.speechStarted⟩], (0 : Nat)⟩ =
      ⟨[⟨FrameType.DATA, EarsPayload.speechStarted⟩], 1⟩ ∧
    (process_frame almostConfirmSt (speechF 1)).2.head? =
      some ⟨FrameType.SYSTEM, EarsPayload.userInterrupt⟩ :=
  ⟨(C4_immediate_bypass.1 Nat (fun _ n => n + 1) _ _ rfl).1,
   C4_immediate_bypass.2.2 almostConfirmSt (speechF 1) rfl rfl (by decide)⟩

/-- C8 counterexample: the claim says enqueue leaves the FIFO unchanged in
every state where `should_stop` holds without `smooth_interrupt`.  In the
stopped state (`is_playing` false, no worker thread) `add_audio_data`
first calls `start_stream`, which resets `should_stop`, and then accepts
the chunk: the FIFO grows. -/
theorem C8_counterexample :
    mouthStopped.shouldStop = true ∧ mouthStopped.smoothInterrupt = false ∧
    (add_audio_data mouthStopped "x" 0 true).audioQueue = ["x"] := by
  refine ⟨rfl, rfl, rfl⟩

/-- C8 amended: the refusal holds in every state where playback is active
(`is_playing` with a live worker thread): there `should_stop` without
`smooth_interrupt` makes `add_audio_data` a no-op.  When playback is
inactive, the stream is restarted first, which clears the stop request, and
the data is accepted.  During a smooth interrupt the grace window applies:
the chunk is enqueued iff no more than `MAX_FINISH_DURATION` has elapsed
since the interrupt was requested. -/
theorem C8_enqueue_refusal_amended (st : MouthState) (d : String) (now : Nat)
    (openOk : Bool) :
    (st.isPlaying = true → st.thread = some true → st.shouldStop = true →
      st.smoothInterrupt = false → add_audio_data st d now openOk = st) ∧
    (∀ t, st.isPlaying = true → st.thread = some true → st.smoothInterrupt = true →
      st.interruptTime = some t → now - t ≤ MAX_FINISH_DURATION_MS →
      (add_audio_data st d now openOk).audioQueue = st.audioQueue ++ [d]) ∧
    (∀ t, st.isPlaying = true → st.thread = some true → st.smoothInterrupt = true →
      st.interruptTime = some t → MAX_FINISH_DURATION_MS < now - t →
      (add_audio_data st d now openOk).audioQueue = st.audioQueue) := by
  refine ⟨?_, ?_, ?_⟩
  · intro hp hth hstop hsm
    simp [add_audio_data, hp, hth, hstop, hsm]
  · intro t hp hth hsm hit hwin
    have hno : ¬ (MAX_FINISH_DURATION_MS < now - t) := by omega
    simp [add_audio_data, hp, hth, hsm, hit, hno, apply_ite]
  · intro t hp hth hsm hit hlate
    simp [add_audio_data, hp, hth, hsm, hit, hlate, apply_ite]

/-- C8 witness: the amended statement evaluated in a mid-playback state with
a hard stop requested (the call is a no-op) and in a smooth-interrupt state
inside and outside the grace window. -/
theorem C8_witness :
    add_audio_data mouthStopping "x" 20 true = mouthStopping ∧
    (add_audio_data mouthSmooth "x" 1100 true).audioQueue = ["q1", "x"] ∧
    (add_audio_data mouthSmooth "x" 1400 true).audioQueue = ["q1"] :=
  ⟨(C8_enqueue_refusal_amended mouthStopping "x" 20 true).1 rfl rfl rfl rfl,
   (C8_enqueue_refusal_amended mouthSmooth "x" 1100 true).2.1 1000 rfl rfl rfl rfl
     (by decide),
   (C8_enqueue_refusal_amended mouthSmooth "x" 1400 true).2.2 1000 rfl rfl rfl rfl
     (by decide)⟩

/-- C9: immediate stop on Playback is idempotent — a second
`stop_immediately` leaves exactly the state the first one produced: FIFO
empty, stream handle cleared, and identical flag values. -/
theorem C9_stop_idempotent (st : MouthState) :
    stop_immediately (stop_immediately st) = stop_immediately st := by
  cases st with
  | mk stream q playing stop smooth be pf fo it lat th =>
    cases stream <;> rfl

/-- C1 counterexample: the claim says the streaming loop compares the
`session_id` captured at turn start against the context's current value
before each side effect and aborts on a difference.  In `c1stream` the turn
started under `session_id = 4` and its only chunk is observed under
`session_id = 5`, nothing else having changed — yet the chunk's audio is
forwarded downstream: the loop performs no session comparison. -/
theorem C1_counterexample :
    c1stream.sessionAtStart ≠ c1obs.sessionId ∧
    (generate_response aiInit c1stream).sentAudio = ["A"] := by
  refine ⟨by decide, rfl⟩

/-- C1 amended: what the loop actually checks before each side effect is
(a) that the request id has not been marked completed, (b) that
`is_generating` still holds and the context's cancellation token is unset —
aborting the turn when the top-of-loop check fails, and skipping the audio
forward and ending the stream when the pre-audio re-check fails (without
marking the turn interrupted); the captured `session_id` is never consulted. -/
theorem C1_session_check_amended :
    (∀ (c : Chunk) (o : ChunkObs) (rest : List (Chunk × ChunkObs)) (k : Nat)
        (st : GenLoopState),
      ((captureRequestId c k st).requestId.isSome ∧ o.completedMark = true) ∨
        o.isGenerating = false ∨ o.cancelled = true →
      (gen_loop ((c, o) :: rest) k st).sentAudio = st.sentAudio ∧
      (gen_loop ((c, o) :: rest) k st).interrupted = true ∧
      (gen_loop ((c, o) :: rest) k st).aiText = st.aiText ∧
      (gen_loop ((c, o) :: rest) k st).transcript = st.transcript) ∧
    (∀ (c : Chunk) (o : ChunkObs) (rest : List (Chunk × ChunkObs)) (k : Nat)
        (st : GenLoopState) (d : Delta) (a : AudioDelta) (dat : String),
      ¬ (((captureRequestId c k st).requestId.isSome ∧ o.completedMark = true) ∨
          o.isGenerating = false ∨ o.cancelled = true) →
      c.delta = some d → d.audio = some a → a.data = some dat →
      ((captureRequestId c k st).requestId.isSome ∧ o.completedMark2 = true) ∨
        o.isGenerating2 = false ∨ o.cancelled2 = true →
      (gen_loop ((c, o) :: rest) k st).sentAudio = st.sentAudio) := by
  constructor
  · intro c o rest k st h
    rw [gen_loop]
    by_cases hg1 : (captureRequestId c k st).requestId.isSome ∧ o.completedMark = true
    · rw [if_pos hg1]
      refine ⟨?_, ?_, ?_, ?_⟩ <;>
        simp [captureRequestId_sentAudio, captureRequestId_aiText,
          captureRequestId_transcript]
    · have h2 : o.isGenerating = false ∨ o.cancelled = true := by tauto
      rw [if_neg hg1, if_pos h2]
      rcases hr : (captureRequestId c k st).requestId with _ | i <;>
        refine ⟨?_, ?_, ?_, ?_⟩ <;>
          simp [hr, captureRequestId_sentAudio, captureRequestId_aiText,
            captureRequestId_transcript]
  · intro c o rest k st d a dat hpass hd ha hdat hg
    have hgen : o.isGenerating = true := by
      cases hx : o.isGenerating
      · exact absurd (Or.inr (Or.inl hx)) hpass
      · rfl
    have hcanc : o.cancelled = false := by
      cases hx : o.cancelled
      · rfl
      · exact absurd (Or.inr (Or.inr hx)) hpass
    have hcm : ¬((captureRequestId c k st).requestId.isSome ∧ o.completedMark = true) :=
      fun h => hpass (Or.inl h)
    rcases hg with ⟨hsome, hcm2⟩ | hg2
    · simp [gen_loop, hd, ha, hdat, hgen, hcanc, hcm, hsome, hcm2, apply_ite,
        applyContent_requestId, applyTranscript_requestId,
        applyContent_sentAudio, applyTranscript_sentAudio, captureRequestId_sentAudio]
    · rcases hg2 with hx | hx <;>
        simp [gen_loop, hd, ha, hdat, hgen, hcanc, hcm, hx, apply_ite,
          applyContent_requestId, applyTranscript_requestId,
          applyContent_sentAudio, applyTranscript_sentAudio, captureRequestId_sentAudio]

/-- C1 witness: the amended statement evaluated on a chunk observed after
`is_generating` was cleared — the turn is marked interrupted and no audio is
forwarded. -/
theorem C1_witness :
    (gen_loop [(c1chunk, stopObs)] 0 genLoopInit).interrupted = true ∧
    (gen_loop [(c1chunk, stopObs)] 0 genLoopInit).sentAudio = [] :=
  have h := C1_session_check_amended.1 c1chunk stopObs [] 0 genLoopInit
    (Or.inr (Or.inl rfl))
  ⟨h.2.1, h.1⟩

/-- C5 counterexample: the claim says a non-interrupted turn appends exactly
one assistant entry.  A stream that ends before delivering any chunk
completes without interruption, yet nothing is appended to the history. -/
theorem C5_counterexample :
    (generate_response aiInit emptyStream).loopFinal.interrupted = false ∧
    (generate_response aiInit emptyStream).state.messages = [] ∧
    (generate_response aiInit emptyStream).upEvents = [UpEvent.responseEnded none] := by
  refine ⟨rfl, rfl, rfl⟩

/-- C5 amended: on normal stream completion, at most one assistant entry is
appended — exactly one when the model transcript or the accumulated raw text
is non-empty (the transcript preferred), none when both are empty; when the
turn was marked interrupted nothing is appended; the request id obtained
from the stream is recorded in the completed set before the `finally`
pruning, and the pruned set is bounded by 100 entries. -/
theorem C5_history_append_amended (st : AIState) (stream : GenStream)
    (he : stream.error = none) :
    ((generate_response st stream).loopFinal.interrupted = false →
      ((generate_response st stream).loopFinal.transcript ≠ "" →
        (generate_response st stream).state.messages =
          st.messages ++ [Msg.assistant (generate_response st stream).loopFinal.transcript]) ∧
      ((generate_response st stream).loopFinal.transcript = "" →
        (generate_response st stream).loopFinal.aiText ≠ "" →
        (generate_response st stream).state.messages =
          st.messages ++ [Msg.assistant (generate_response st stream).loopFinal.aiText]) ∧
      ((generate_response st stream).loopFinal.transcript = "" →
        (generate_response st stream).loopFinal.aiText = "" →
        (generate_response st stream).state.messages = st.messages)) ∧
    ((generate_response st stream).loopFinal.interrupted = true →
      (generate_response st stream).state.messages = st.messages) ∧
    (∀ i, (generate_response st stream).loopFinal.requestId = some i →
      i ∈ (generate_response st stream).completedBeforePrune) ∧
    (generate_response st stream).state.completedRequestIds.length ≤ 100 := by
  simp only [generate_response, he]
  refine ⟨fun hni => ⟨fun htr => ?_, fun htr hai => ?_, fun htr hai => ?_⟩,
    fun hi => ?_, fun i hreq => ?_, ?_⟩
  · simp [hni, htr]
  · simp [hni, htr, hai]
  · simp [hni, htr, hai]
  · simp [hi]
  · simp only [hreq]
    exact mem_setAdd_self _ _
  · exact pruneCompleted_length_le _

/-- C5 witness: the amended statement evaluated on a normally completing
stream carrying transcript "hi": exactly one assistant entry with the
transcript is appended and request id 7 is recorded. -/
theorem C5_witness :
    (generate_response aiInit transcriptStream).state.messages = [Msg.assistant "hi"] ∧
    7 ∈ (generate_response aiInit transcriptStream).completedBeforePrune :=
  have h := C5_history_append_amended aiInit transcriptStream rfl
  ⟨(h.1 rfl).1 (by decide), h.2.2.1 7 rfl⟩

/-- C7: for every execution of the streaming turn — with or without a
transport error — exactly one `ai_response_ended` event is emitted upstream,
carrying the error exactly when one was raised (the exception never crosses
the stage boundary), the `is_generating` flag is cleared by the
`finally`-style cleanup on every exit path, and an errored turn appends
nothing to the conversation history. -/
theorem C7_error_cleanup (st : AIState) (stream : GenStream) :
    (generate_response st stream).state.isGenerating = false ∧
    (generate_response st stream).upEvents = [UpEvent.responseEnded stream.error] ∧
    (∀ e, stream.error = some e →
      (generate_response st stream).state.messages = st.messages) := by
  cases he : stream.error with
  | none => simp [generate_response, he]
  | some e => simp [generate_response, he]

/-- C7 witness: a turn whose stream raises "boom" ends with the flag
cleared, an error-carrying `ai_response_ended`, and an unchanged history. -/
theorem C7_witness :
    (generate_response aiInit errorStream).state.isGenerating = false ∧
    (generate_response aiInit errorStream).upEvents =
      [UpEvent.responseEnded (some "boom")] ∧
    (generate_response aiInit errorStream).state.messages = [] :=
  have h := C7_error_cleanup aiInit errorStream
  ⟨h.1, h.2.1, h.2.2 "boom" rfl⟩

/-- C10: while a response is already generating, handling a `speech_ready`
frame appends the user message to the history and emits
`ai_response_started` upstream, but starts no response thread — the request
is dropped, not queued: the state is otherwise unchanged, so at most one
generation thread exists at any time. -/
theorem C10_single_generation_thread (st : AIState) (a : String)
    (hg : st.isGenerating = true) (ha : a ≠ "") :
    ai_process_frame st (AIn.speechReady a) =
      { state := { st with messages := st.messages ++ [Msg.user a] },
        upEvents := [UpEvent.responseStarted], downCommands := [],
        threadStarted := false } := by
  simp [ai_process_frame, start_response_thread, ha, hg]

/-- C10 witness: a `speech_ready` frame arriving while `is_generating` holds
appends the user message and starts no thread. -/
theorem C10_witness :
    ai_process_frame { aiInit with isGenerating := true } (AIn.speechReady "wav") =
      { state := { aiInit with isGenerating := true, messages := [Msg.user "wav"] },
        upEvents := [UpEvent.responseStarted], downCommands := [],
        threadStarted := false } :=
  C10_single_generation_thread { aiInit with isGenerating := true } "wav" rfl (by decide)

end VoiceChat
